import Mathlib

/-!
Shallow embedding of the bank-statement → YNAB conversion core
(`YNABFormatter` in `src/utils/ynabFormatter.ts` together with the
`bankConfigs` table in `src/config/bankConfigs.ts`).

JavaScript numbers are modelled as exact rationals (`ℚ`), JS strings as
Lean `String`, missing / `undefined` values as `Option`, and the
`Promise` rejection of `parseFile` as `Except String`.  Calendar
arithmetic of `Date.UTC` (including out-of-range month/day rollover) is
modelled with the standard civil-from-days / days-from-civil algorithms
over proleptic-Gregorian day counts.
-/

namespace BankToYnab

/-! ## Calendar arithmetic (model of the ECMAScript `Date` UTC calendar) -/

def isLeap (y : Int) : Bool :=
  y % 4 = 0 && (y % 100 ≠ 0 || y % 400 = 0)

def daysInMonth (y : Int) (m : Nat) : Nat :=
  if m = 2 then (if isLeap y then 29 else 28)
  else if m = 4 || m = 6 || m = 9 || m = 11 then 30
  else 31

/-- Days since 1970-01-01 of the civil date `(y, m, d)`; `m` is 1–12 while
`d` may be any integer (day overflow/underflow rolls over, as in
ECMAScript `MakeDay`). -/
def daysFromCivil (y : Int) (m : Nat) (d : Int) : Int :=
  let y2 : Int := if m ≤ 2 then y - 1 else y
  let era : Int := Int.fdiv y2 400
  let yoe : Int := y2 - era * 400
  let mp : Nat := (m + 9) % 12
  let doy : Int := ((153 * mp + 2) / 5 : Nat) + (d - 1)
  let doe : Int := yoe * 365 + Int.fdiv yoe 4 - Int.fdiv yoe 100 + doy
  era * 146097 + doe - 719468

/-- Civil date `(year, month, day)` of a day count since 1970-01-01. -/
def civilFromDays (z0 : Int) : Int × Nat × Nat :=
  let z := z0 + 719468
  let era := Int.fdiv z 146097
  let doe := (z - era * 146097).toNat
  let yoe := (doe - doe / 1460 + doe / 36524 - doe / 146096) / 365
  let y : Int := (yoe : Int) + era * 400
  let doy := doe - (365 * yoe + yoe / 4 - yoe / 100)
  let mp := (5 * doy + 2) / 153
  let d := doy - (153 * mp + 2) / 5 + 1
  let m := if mp < 10 then mp + 3 else mp - 9
  (if m ≤ 2 then y + 1 else y, m, d)

/-- `Date.UTC(y, monthIndex, day)` (0-based month, both arguments may be out
of range and roll over), reduced back to a civil date. -/
def jsDateUTC (y m d : Int) : Int × Nat × Nat :=
  civilFromDays (daysFromCivil (y + Int.fdiv m 12) ((Int.emod m 12).toNat + 1) d)

/-- Day count of the legacy spreadsheet epoch 1899-12-30. -/
def serialEpochDays : Int := daysFromCivil 1899 12 30

/-- Civil date of spreadsheet serial number `n` (days since 1899-12-30). -/
def serialCivil (n : Nat) : Int × Nat × Nat :=
  civilFromDays (serialEpochDays + n)

/-! ## String helpers (JS semantics on the shapes used here) -/

def digitVal (c : Char) : Nat := c.toNat - 48

def digitChar (k : Nat) : Char := Char.ofNat (48 + k)

/-- Numeric value of a digit string (JS `parseInt(s, 10)` on an
all-digits string). -/
def natValue (cs : List Char) : Nat :=
  cs.foldl (fun acc c => 10 * acc + digitVal c) 0

def digitsOnly (cs : List Char) : Bool :=
  !cs.isEmpty && cs.all Char.isDigit

/-- Two-digit zero-padded rendering of `n % 100`
(JS `n.toString().padStart(2, '0')` for `n < 100`). -/
def pad2 (n : Nat) : String :=
  ⟨[digitChar (n / 10), digitChar (n % 10)]⟩

/-- The code's `${year}-${month.padStart(2,'0')}-${day.padStart(2,'0')}`
rendering of UTC date parts. -/
def renderYMD (y : Int) (m d : Nat) : String :=
  toString y ++ "-" ++ pad2 m ++ "-" ++ pad2 d

/-- JS `String(x)` on a possibly-`undefined` string value. -/
def jsString (v : Option String) : String :=
  match v with
  | some s => s
  | none => "undefined"

/-- JS truthiness filter on an optional string (`undefined` and `""` are
falsy). -/
def jsTruthyStr (v : Option String) : Option String :=
  match v with
  | some s => if s = "" then none else some s
  | none => none

def isJsSpace (c : Char) : Bool :=
  c = ' ' || c = '\t' || c = '\n' || c = '\r' || c.toNat = 11 || c.toNat = 12

/-- JS `String.prototype.trim` (ASCII whitespace, which covers every
input shape this code base feeds it). -/
def jsTrim (s : String) : String :=
  ⟨((s.data.dropWhile isJsSpace).reverse.dropWhile isJsSpace).reverse⟩

def jsCharLower (c : Char) : Char :=
  if 65 ≤ c.toNat && c.toNat ≤ 90 then Char.ofNat (c.toNat + 32) else c

/-- JS `String.prototype.toLowerCase` (ASCII case folding, which covers
the configured header names). -/
def jsToLower (s : String) : String := ⟨s.data.map jsCharLower⟩

/-- JS string `<=` (lexicographic on code units). -/
def strLeB : List Char → List Char → Bool
  | [], _ => true
  | _ :: _, [] => false
  | a :: as, b :: bs =>
    if a.toNat < b.toNat then true
    else if b.toNat < a.toNat then false
    else strLeB as bs

/-- JS `a >= b` on strings. -/
def jsStrGe (a b : String) : Bool := strLeB b.data a.data

/-! ## JS `parseFloat` (modelled without exponent notation, which the
cleaned amount strings of this code base cannot contain) -/

def natOfDigits (cs : List Char) : Nat :=
  cs.foldl (fun acc c => 10 * acc + digitVal c) 0

/-- JS `parseFloat`: optional sign, then the longest prefix of digits,
optionally followed by a dot and more digits; `none` models `NaN`. -/
def jsParseFloat (s : String) : Option ℚ :=
  let cs := s.data.dropWhile Char.isWhitespace
  let signed : Bool × List Char :=
    match cs with
    | '-' :: t => (true, t)
    | '+' :: t => (false, t)
    | t => (false, t)
  let intDigits := signed.2.takeWhile Char.isDigit
  let rest := signed.2.dropWhile Char.isDigit
  let fracDigits :=
    match rest with
    | '.' :: t => t.takeWhile Char.isDigit
    | _ => []
  if intDigits.isEmpty && fracDigits.isEmpty then none
  else
    let mag : ℚ :=
      mkRat (natOfDigits intDigits * 10 ^ fracDigits.length + natOfDigits fracDigits)
        (10 ^ fracDigits.length)
    some (if signed.1 then -mag else mag)

/-- `parseFloat(x) || 0`: `NaN` (and `0` itself) collapse to `0`. -/
def jsParseFloatOr0 (s : String) : ℚ := (jsParseFloat s).getD 0

/-- `s.replace(/[^0-9.-]/g, '')`. -/
def cleanAmount (s : String) : String :=
  ⟨s.data.filter (fun c => c.isDigit || c = '.' || c = '-')⟩

/-- `s.replace(/\$/g, '').replace(/,/g, '')`. -/
def stripDollarsCommas (s : String) : String :=
  ⟨s.data.filter (fun c => !(c = '$' || c = ','))⟩

/-! ## JS `new Date(string)` (model of the ECMAScript / V8 parser for the
string shapes this code feeds it) -/

/-- Models `new Date(dateString)` for the input shapes exercised by this
repository: ISO `YYYY-MM-DD` calendar dates (4-digit year; month and
day-of-month validated, as V8 does for ISO strings), and plain numeric
strings of 4–6 digits with value ≤ 275760, which V8 resolves to
January 1 of that year.  All other shapes are modelled as unparseable
(`none`, i.e. an Invalid Date). -/
def jsDateParse (s : String) : Option (Int × Nat × Nat) :=
  match s.data with
  | [a, b, c, d, '-', e, f, '-', g, h] =>
    if [a, b, c, d, e, f, g, h].all Char.isDigit then
      let y : Int := natValue [a, b, c, d]
      let m := natValue [e, f]
      let dd := natValue [g, h]
      if 1 ≤ m ∧ m ≤ 12 ∧ 1 ≤ dd ∧ dd ≤ daysInMonth y m then
        some (y, m, dd)
      else none
    else none
  | cs =>
    if digitsOnly cs ∧ 4 ≤ cs.length ∧ cs.length ≤ 6 ∧ natValue cs ≤ 275760 then
      some ((natValue cs : Int), 1, 1)
    else none

/-! ## `YNABFormatter.formatDate` -/

def isSep (c : Char) : Bool := c = '/' || c = '-' || c = '.'

/-- JS `s.split(/[\/\-.]/)` on the character list. -/
def splitSep : List Char → List (List Char)
  | [] => [[]]
  | c :: rest =>
    match splitSep rest with
    | [] => [[c]]
    | h :: t => if isSep c then [] :: h :: t else (c :: h) :: t

def isDigits1to2 (p : List Char) : Bool :=
  (p.length = 1 || p.length = 2) && p.all Char.isDigit

/-- Match of `/^\d{1,2}[\/\-.]\d{1,2}[\/\-.]\d{2,4}$/` returning the three
numeric components, with the two-digit-year expansion
(`'20' + parts[2]`) already applied to the year. -/
def matchDayMonthPat (s : String) : Option (Nat × Nat × Nat) :=
  match splitSep s.data with
  | [p0, p1, p2] =>
    if isDigits1to2 p0 && isDigits1to2 p1 &&
        ((2 ≤ p2.length && p2.length ≤ 4) && p2.all Char.isDigit) then
      let year := if p2.length = 2 then 2000 + natValue p2 else natValue p2
      some (natValue p0, natValue p1, year)
    else none
  | _ => none

/-- Match of `/^\d{4}[\/\-.]\d{1,2}[\/\-.]\d{1,2}$/` returning the three
numeric components. -/
def matchYMDPat (s : String) : Option (Nat × Nat × Nat) :=
  match splitSep s.data with
  | [p0, p1, p2] =>
    if (p0.length = 4 && p0.all Char.isDigit) && isDigits1to2 p1 && isDigits1to2 p2 then
      some (natValue p0, natValue p1, natValue p2)
    else none
  | _ => none

/-- The no-hint fallback of `formatDate`: generic parsing, the
year-vs-serial disambiguation for purely numeric strings, and the
serial fallback when generic parsing yields an Invalid Date. -/
def formatDateGeneric (dateString : String) : Option (Int × Nat × Nat) :=
  let initial := jsDateParse dateString
  if digitsOnly dateString.data then
    let numericValue := natValue dateString.data
    match initial with
    | some d0 =>
      if d0.1 = (numericValue : Int) then
        if 20000 ≤ numericValue ∧ numericValue ≤ 80000 then
          some (serialCivil numericValue)
        else some d0
      else some d0
    | none =>
      if (dateString.length = 4 ∨ dateString.length = 5) ∧
          1 ≤ numericValue ∧ numericValue < 100000 then
        some (serialCivil numericValue)
      else none
  else initial

/-- The `dateObj` computation of `YNABFormatter.formatDate`: `some` is a
valid `Date`, `none` an Invalid Date.  A hint branch is taken only when
both the hint token and its strict pattern match; otherwise execution
falls through to the generic chain. -/
def formatDateCore (dateString : String) (inputFormatHint : Option String) :
    Option (Int × Nat × Nat) :=
  if inputFormatHint = some "DD/MM/YYYY" then
    match matchDayMonthPat dateString with
    | some p => some (jsDateUTC p.2.2 ((p.2.1 : Int) - 1) p.1)
    | none => formatDateGeneric dateString
  else if inputFormatHint = some "MM/DD/YYYY" then
    match matchDayMonthPat dateString with
    | some p => some (jsDateUTC p.2.2 ((p.1 : Int) - 1) p.2.1)
    | none => formatDateGeneric dateString
  else if inputFormatHint = some "YYYY/MM/DD" then
    match matchYMDPat dateString with
    | some p => some (jsDateUTC p.1 ((p.2.1 : Int) - 1) p.2.2)
    | none => formatDateGeneric dateString
  else formatDateGeneric dateString

/-- `YNABFormatter.formatDate` together with its observable warning: the
first component is the returned string, the second is `true` exactly when
the "Could not parse date" warning is logged. -/
def formatDateW (dateString : String) (inputFormatHint : Option String) :
    String × Bool :=
  match formatDateCore dateString inputFormatHint with
  | some (y, m, d) => (renderYMD y m d, false)
  | none => (dateString, true)

def formatDate (dateString : String) (inputFormatHint : Option String) : String :=
  (formatDateW dateString inputFormatHint).1

/-! ## `YNABFormatter.formatDateForOutput` -/

/-- Destructuring match of `/^\d{4}-\d{2}-\d{2}$/` into
year/month/day substrings. -/
def isoParts (s : String) : Option (String × String × String) :=
  match s.data with
  | [a, b, c, d, '-', e, f, '-', g, h] =>
    if [a, b, c, d, e, f, g, h].all Char.isDigit then
      some (⟨[a, b, c, d]⟩, ⟨[e, f]⟩, ⟨[g, h]⟩)
    else none
  | _ => none

/-- Test of `/^\d{4}-\d{2}-\d{2}$/` (also covering the code's
falsy-guard, since `""` has no parts). -/
def isoShape (s : String) : Bool := (isoParts s).isSome

def formatDateForOutput (isoDate : String) (formatKey : Option String) : String :=
  match isoParts isoDate with
  | none => isoDate
  | some (year, month, day) =>
    match formatKey with
    | some "Day/Month/Year" => day ++ "/" ++ month ++ "/" ++ year
    | some "Month/Day/Year" => month ++ "/" ++ day ++ "/" ++ year
    | some "Year/Month/Day" => year ++ "/" ++ month ++ "/" ++ day
    | _ => isoDate

/-! ## Data model -/

/-- A raw row record: JS object keyed by column header (insertion
ordered, each key at most once). -/
abbrev Row := List (String × String)

structure NormalizedTransaction where
  date : String
  description : String
  amount : ℚ
  payee : Option String := none
  deriving DecidableEq, Repr

structure YNABTransaction where
  Date : String
  Payee : String
  Category : String
  Memo : String
  Outflow : String
  Inflow : String
  deriving DecidableEq, Repr

structure ConvertToYNABOptions where
  importMemos : Bool
  swapPayeesMemos : Bool
  outputDateFormat : Option String := none
  deriving DecidableEq, Repr

structure BankParseConfig where
  label : String
  dateField : String
  descriptionField : String
  payeeField : Option String := none
  outflowField : Option String := none
  inflowField : Option String := none
  amountField : Option String := none
  skipRows : Option Nat := none
  dateFormat : Option String := none
  transformAmount : Option (Option String → Option String → Option String → ℚ) := none

/-- `getRowValue`: exact key match first, then the first case-insensitive
match; a missing or falsy (`undefined` / `""`) field name yields
`undefined`. -/
def getRowValue (row : Row) (fieldNameFromConfig : Option String) : Option String :=
  match fieldNameFromConfig with
  | none => none
  | some f =>
    if f = "" then none
    else
      match List.lookup f row with
      | some v => some v
      | none => (row.find? (fun kv => jsToLower kv.1 == jsToLower f)).map Prod.snd

/-- A cell value that is `undefined`, `null`, or blank after trimming. -/
def blankCell (v : Option String) : Bool :=
  match v with
  | none => true
  | some s => jsTrim s = ""

/-! ## The `bankConfigs` table (`src/config/bankConfigs.ts`) -/

def eqbankTransform (_outflow _inflow amount : Option String) : ℚ :=
  match amount with
  | some a => (jsParseFloat (stripDollarsCommas a)).getD 0
  | none => 0

def amexTransform (_outflow _inflow amount : Option String) : ℚ :=
  match amount with
  | some a =>
    match jsParseFloat (cleanAmount a) with
    | some n => n * (-1)
    | none => 0
  | none => 0

def scotiabankTransform (_outflow _inflow amount : Option String) : ℚ :=
  match amount with
  | some a =>
    match jsParseFloat (stripDollarsCommas a) with
    | some n => -n
    | none => 0
  | none => 0

def bankConfigs : List (String × BankParseConfig) :=
  [ ("eqbank",
     { label := "EQ Bank (CSV)"
       dateField := "Transfer date"
       descriptionField := "Description"
       amountField := some "Amount"
       skipRows := some 0
       dateFormat := some "DD MMM YYYY"
       transformAmount := some eqbankTransform }),
    ("amex",
     { label := "American Express (XLS)"
       skipRows := some 12
       dateField := "Date"
       descriptionField := "Description"
       payeeField := some "Merchant"
       amountField := some "Amount"
       dateFormat := some "MM/DD/YYYY"
       transformAmount := some amexTransform }),
    ("scotiabank",
     { label := "Scotiabank (CSV)"
       skipRows := some 0
       dateField := "Date"
       descriptionField := "Description"
       payeeField := some "Sub-description"
       amountField := some "Amount"
       dateFormat := some "YYYY-MM-DD"
       transformAmount := some scotiabankTransform }) ]

/-! ## `YNABFormatter.parseXLSX` (pure part, on the decoded
string-cell matrix) -/

/-- `row && row.length > 0 && String(row[0]).trim().toLowerCase() === "date"`. -/
def rowIsDateHeader (row : List String) : Bool :=
  match row with
  | [] => false
  | c :: _ => jsToLower (jsTrim c) == "date"

/-- Index of the first row whose first cell is `"date"` (the scan loop
with `break`). -/
def findDateRowIdx : List (List String) → Option Nat
  | [] => none
  | r :: rest =>
    if rowIsDateHeader r then some 0
    else (findDateRowIdx rest).map (· + 1)

/-- The adopted header row index. -/
def headerRowIndexOf (sheet : List (List String)) (skipRows : Nat) : Nat :=
  if 10 ≤ skipRows then (findDateRowIdx sheet).getD skipRows else skipRows

/-- JS object construction `rowObject[headers[index]] = cellValue` over
`rowArray.forEach`: empty-string headers are falsy and skipped, a
duplicate header keeps its first position but takes the last written
value. -/
def upsert (row : Row) (k v : String) : Row :=
  if row.any (fun kv => kv.1 == k) then
    row.map (fun kv => if kv.1 == k then (k, v) else kv)
  else row ++ [(k, v)]

def mkRowObject (headers : List String) (cells : List String) : Row :=
  cells.enum.foldl
    (fun acc p =>
      match headers.get? p.1 with
      | some h => if h = "" then acc else upsert acc h p.2
      | none => acc) []

def parseXLSX (sheet : List (List String)) (skipRows : Nat) : List Row :=
  if sheet.isEmpty then []
  else
    let headerRowIndex := headerRowIndexOf sheet skipRows
    if sheet.length ≤ headerRowIndex then []
    else
      let headers := sheet.getD headerRowIndex []
      let dataRows := sheet.drop (headerRowIndex + 1)
      dataRows.map (mkRowObject headers)

/-! ## `YNABFormatter.parseFile` row processing -/

/-- `typeof rawAmount === 'string' ? rawAmount.replace(/[^0-9.-]/g, '') :
String(rawAmount)` for the single-amount-column default path. -/
def defaultCleanedAmount (row : Row) (af : String) : String :=
  match getRowValue row (some af) with
  | some s => cleanAmount s
  | none => "undefined"

/-- Amount resolution of the per-row mapping (`transformAmount`, single
`amountField` with cleanup, or separate outflow/inflow columns). -/
def resolveAmount (config : BankParseConfig) (row : Row) : ℚ :=
  match config.transformAmount with
  | some f =>
    let amountArg := (jsTruthyStr config.amountField).map
      (fun af => jsString (getRowValue row (some af)))
    let outflowArg := (jsTruthyStr config.outflowField).map
      (fun f0 => jsString (getRowValue row (some f0)))
    let inflowArg := (jsTruthyStr config.inflowField).map
      (fun f0 => jsString (getRowValue row (some f0)))
    f outflowArg inflowArg amountArg
  | none =>
    match jsTruthyStr config.amountField with
    | some af => jsParseFloatOr0 (defaultCleanedAmount row af)
    | none =>
      match jsTruthyStr config.outflowField, jsTruthyStr config.inflowField with
      | some of, some inf =>
        let outflowNum := jsParseFloatOr0 (cleanAmount (jsString (getRowValue row (some of))))
        let inflowNum := jsParseFloatOr0 (cleanAmount (jsString (getRowValue row (some inf))))
        inflowNum - outflowNum
      | _, _ => 0

/-- The optional payee attachment (step after the validity check). -/
def resolvePayee (config : BankParseConfig) (row : Row) : Option String :=
  match (jsTruthyStr config.payeeField).bind (fun pf => getRowValue row (some pf)) with
  | some p => if jsTrim p = "" then none else some (jsTrim p)
  | none => none

/-- One iteration of the `rawData.map(...)` body: `none` is the
`return null` of a skipped row (missing/blank date or description). -/
def rowToTx (config : BankParseConfig) (effectiveDateFormat : Option String)
    (row : Row) : Option NormalizedTransaction :=
  let dateValue := getRowValue row (some config.dateField)
  let descriptionValue := getRowValue row (some config.descriptionField)
  if blankCell dateValue || blankCell descriptionValue then none
  else
    some
      { date := formatDate (jsString dateValue) effectiveDateFormat
        description := jsTrim (jsString descriptionValue)
        amount := resolveAmount config row
        payee := resolvePayee config row }

/-- The `importStartDate` filtering step. -/
def applyStartDateFilter (importStartDate : Option String)
    (transactions : List NormalizedTransaction) : List NormalizedTransaction :=
  match importStartDate with
  | some d =>
    if isoShape d then
      transactions.filter (fun tx => !isoShape tx.date || jsStrGe tx.date d)
    else transactions
  | none => transactions

/-- JS `s.split('.')` on the character list. -/
def splitDot : List Char → List (List Char)
  | [] => [[]]
  | c :: rest =>
    match splitDot rest with
    | [] => [[c]]
    | h :: t => if c = '.' then [] :: h :: t else (c :: h) :: t

/-- `file.name.split('.').pop()?.toLowerCase()`. -/
def fileExtension (name : String) : String :=
  jsToLower ⟨(splitDot name.data).getLastD []⟩

/-- JS `a || b` on optional strings (`undefined` and `""` are falsy). -/
def jsOrStr (a b : Option String) : Option String :=
  match jsTruthyStr a with
  | some s => some s
  | none => b

/-- `YNABFormatter.parseFile` over an explicit configuration table.  The
asynchronous file decoding is abstracted: `csvData` is what PapaParse
would deliver for the CSV path, `xlsxSheet` the string-cell matrix the
spreadsheet decoder would deliver for the XLS/XLSX path.  `Except.error`
models a rejected promise. -/
def parseFileWith (configs : List (String × BankParseConfig)) (fileName bankType : String)
    (uiDateFormatHint importStartDate : Option String)
    (csvData : List Row) (xlsxSheet : List (List String)) :
    Except String (List NormalizedTransaction) :=
  match List.lookup bankType configs with
  | none => Except.error s!"Unsupported bank type: {bankType}. No configuration found."
  | some config =>
    let ext := fileExtension fileName
    let effectiveDateFormat := jsOrStr uiDateFormatHint config.dateFormat
    if ext = "csv" then
      let rawData := csvData
      let transactions :=
        (rawData.drop (config.skipRows.getD 0)).filterMap (rowToTx config effectiveDateFormat)
      Except.ok (applyStartDateFilter importStartDate transactions)
    else if ext = "xlsx" || ext = "xls" then
      let rawData := parseXLSX xlsxSheet (config.skipRows.getD 0)
      let transactions := rawData.filterMap (rowToTx config effectiveDateFormat)
      Except.ok (applyStartDateFilter importStartDate transactions)
    else
      Except.error "Unsupported file type. Please upload CSV, XLS, or XLSX."

instance {ε α : Type} [DecidableEq ε] [DecidableEq α] : DecidableEq (Except ε α) :=
  fun a b =>
    match a, b with
    | Except.ok x, Except.ok y =>
      if h : x = y then isTrue (by rw [h])
      else isFalse (fun hc => h (Except.ok.inj hc))
    | Except.error x, Except.error y =>
      if h : x = y then isTrue (by rw [h])
      else isFalse (fun hc => h (Except.error.inj hc))
    | Except.ok _, Except.error _ => isFalse (fun hc => Except.noConfusion hc)
    | Except.error _, Except.ok _ => isFalse (fun hc => Except.noConfusion hc)

/-- `parseFile` against the repository's `bankConfigs` table. -/
def parseFile (fileName bankType : String)
    (uiDateFormatHint importStartDate : Option String)
    (csvData : List Row) (xlsxSheet : List (List String)) :
    Except String (List NormalizedTransaction) :=
  parseFileWith bankConfigs fileName bankType uiDateFormatHint importStartDate
    csvData xlsxSheet

/-! ## `YNABFormatter.convertToYNABTransactions` -/

/-- JS `Number.prototype.toFixed(2)` on an exact rational: the integer
`n` with `n / 100` closest to the value, the larger one on ties. -/
def toFixed2 (q : ℚ) : String :=
  let n : Int := Int.floor (q * 100 + 1 / 2)
  let m : Nat := n.natAbs
  (if n < 0 then "-" else "") ++ toString (m / 100) ++ "." ++ pad2 (m % 100)

/-- The body of the `transactions.map(...)` in
`convertToYNABTransactions`. -/
def convertOne (options : ConvertToYNABOptions) (transaction : NormalizedTransaction) :
    YNABTransaction :=
  let description := transaction.description
  let payeeT := jsTruthyStr transaction.payee
  let finalPayee :=
    match payeeT with
    | some p => p
    | none =>
      if options.importMemos && options.swapPayeesMemos then description else ""
  let finalMemo :=
    if options.importMemos then
      match payeeT with
      | some _ => description
      | none => if options.swapPayeesMemos then "" else description
    else ""
  let finalOutflow := if transaction.amount < 0 then toFixed2 |transaction.amount| else ""
  let finalInflow := if 0 < transaction.amount then toFixed2 transaction.amount else ""
  { Date := formatDateForOutput transaction.date options.outputDateFormat
    Payee := finalPayee
    Category := ""
    Memo := finalMemo
    Outflow := finalOutflow
    Inflow := finalInflow }

def convertToYNABTransactions (transactions : List NormalizedTransaction)
    (options : ConvertToYNABOptions) : List YNABTransaction :=
  transactions.map (convertOne options)

/-! ## Helper lemmas -/

theorem digitChar_isDigit {k : Nat} (h : k < 10) : (digitChar k).isDigit = true := by
  interval_cases k <;> decide

/-- `toFixed2` always renders with a decimal point followed by exactly
two digit characters. -/
theorem toFixed2_shape (q : ℚ) :
    ∃ pre a b, toFixed2 q = pre ++ "." ++ String.mk [a, b] ∧
      a.isDigit = true ∧ b.isDigit = true := by
  refine ⟨(if Int.floor (q * 100 + 1 / 2) < 0 then "-" else "") ++
      toString ((Int.floor (q * 100 + 1 / 2)).natAbs / 100),
    digitChar ((Int.floor (q * 100 + 1 / 2)).natAbs % 100 / 10),
    digitChar ((Int.floor (q * 100 + 1 / 2)).natAbs % 100 % 10), ?_, ?_, ?_⟩
  · rfl
  · have h1 : (Int.floor (q * 100 + 1 / 2)).natAbs % 100 < 10 * 10 :=
      Nat.mod_lt _ (by norm_num)
    exact digitChar_isDigit (Nat.div_lt_of_lt_mul h1)
  · exact digitChar_isDigit (Nat.mod_lt _ (by norm_num))

theorem splitSep_of_no_sep {cs : List Char} (h : ∀ c ∈ cs, isSep c = false) :
    splitSep cs = [cs] := by
  induction cs with
  | nil => rfl
  | cons c rest ih =>
    have hrest : splitSep rest = [rest] := ih (fun x hx => h x (List.mem_cons_of_mem _ hx))
    simp only [splitSep, hrest]
    rw [h c (List.mem_cons_self _ _)]
    simp

theorem isDigit_not_isSep {c : Char} (h : c.isDigit = true) : isSep c = false := by
  by_cases h1 : c = '/'
  · subst h1; simp at h
  · by_cases h2 : c = '-'
    · subst h2; simp at h
    · by_cases h3 : c = '.'
      · subst h3; simp at h
      · simp [isSep, h1, h2, h3]

theorem matchDayMonthPat_of_digits {s : String} (h : digitsOnly s.data = true) :
    matchDayMonthPat s = none := by
  have hall : ∀ c ∈ s.data, isSep c = false := by
    intro c hc
    have := (List.all_eq_true.mp (Bool.and_elim_right h)) c hc
    exact isDigit_not_isSep this
  have hsplit := splitSep_of_no_sep hall
  unfold matchDayMonthPat
  rw [hsplit]

theorem matchYMDPat_of_digits {s : String} (h : digitsOnly s.data = true) :
    matchYMDPat s = none := by
  have hall : ∀ c ∈ s.data, isSep c = false := by
    intro c hc
    have := (List.all_eq_true.mp (Bool.and_elim_right h)) c hc
    exact isDigit_not_isSep this
  have hsplit := splitSep_of_no_sep hall
  unfold matchYMDPat
  rw [hsplit]

theorem findDateRowIdx_some {sheet : List (List String)} {i : Nat}
    (h : findDateRowIdx sheet = some i) :
    i < sheet.length ∧ rowIsDateHeader (sheet.getD i []) = true ∧
      ∀ j, j < i → rowIsDateHeader (sheet.getD j []) = false := by
  induction sheet generalizing i with
  | nil => simp [findDateRowIdx] at h
  | cons r rest ih =>
    by_cases hr : rowIsDateHeader r = true
    · simp [findDateRowIdx, hr] at h
      subst h
      exact ⟨Nat.succ_pos _, hr, fun j hj => absurd hj (Nat.not_lt_zero j)⟩
    · simp [findDateRowIdx, hr] at h
      obtain ⟨i', hi', rfl⟩ := h
      obtain ⟨hlt, hhead, hprev⟩ := ih hi'
      refine ⟨Nat.succ_lt_succ hlt, hhead, ?_⟩
      intro j hj
      cases j with
      | zero => simpa using (Bool.not_eq_true _).mp hr
      | succ j' => exact hprev j' (Nat.lt_of_succ_lt_succ hj)

theorem findDateRowIdx_none {sheet : List (List String)}
    (h : findDateRowIdx sheet = none) :
    ∀ j, j < sheet.length → rowIsDateHeader (sheet.getD j []) = false := by
  induction sheet with
  | nil => intro j hj; simp at hj
  | cons r rest ih =>
    by_cases hr : rowIsDateHeader r = true
    · simp [findDateRowIdx, hr] at h
    · simp [findDateRowIdx, hr] at h
      intro j hj
      cases j with
      | zero => simpa using (Bool.not_eq_true _).mp hr
      | succ j' => exact ih h j' (Nat.lt_of_succ_lt_succ hj)

theorem bool_or_eq_true {a b : Bool} : (a || b) = true ↔ a = true ∨ b = true := by
  cases a <;> cases b <;> simp

theorem length_filterMap_eq_length_filter {α β : Type} (f : α → Option β)
    (l : List α) :
    (l.filterMap f).length = (l.filter (fun a => (f a).isSome)).length := by
  induction l with
  | nil => rfl
  | cons a rest ih =>
    by_cases ha : (f a).isSome
    · obtain ⟨b, hb⟩ := Option.isSome_iff_exists.mp ha
      simp [List.filterMap_cons, List.filter_cons, hb, ih]
    · have hnone : f a = none := Option.not_isSome_iff_eq_none.mp ha
      simp [List.filterMap_cons, List.filter_cons, hnone, ih,
        Option.isSome_none]

/-! ## Claim C1 -/

/-- C1 (counterexample): the claim that a record carrying an explicit
payee always gets `Memo = description` "for every combination of the
export options" fails: with `importMemos = false` (and
`swapPayeesMemos = true`) the code leaves `Memo = ""` even though the
record's description is `"D"`. -/
theorem convert_payee_memo_counterexample :
    convertToYNABTransactions
        [{ date := "2023-01-01", description := "D", amount := 0, payee := some "P" }]
        { importMemos := false, swapPayeesMemos := true } =
      [{ Date := "2023-01-01", Payee := "P", Category := "", Memo := "",
         Outflow := "", Inflow := "" }] ∧
    ("" : String) ≠ "D" := by
  constructor
  · decide
  · decide

/-- C1 (amended): for a record whose payee is attached (truthy), the
output `Payee` is that payee for every option combination, and the
output `Memo` is the description exactly when `importMemos` is true
(regardless of `swapPayeesMemos`); when `importMemos` is false the
`Memo` is empty. -/
theorem convert_payee_memo_amended (txs : List NormalizedTransaction)
    (options : ConvertToYNABOptions) (tx : NormalizedTransaction) (p : String)
    (htx : tx ∈ txs) (hp : jsTruthyStr tx.payee = some p) :
    convertOne options tx ∈ convertToYNABTransactions txs options ∧
    (convertOne options tx).Payee = p ∧
    (convertOne options tx).Memo = (if options.importMemos then tx.description else "") := by
  refine ⟨List.mem_map_of_mem _ htx, ?_, ?_⟩
  · simp [convertOne, hp]
  · by_cases him : options.importMemos <;> simp [convertOne, hp, him]

/-- C1 (witness for the amended theorem). -/
theorem convert_payee_memo_amended_witness :
    convertOne { importMemos := false, swapPayeesMemos := true }
        { date := "2023-01-01", description := "D", amount := 0, payee := some "P" } ∈
      convertToYNABTransactions
        [{ date := "2023-01-01", description := "D", amount := 0, payee := some "P" }]
        { importMemos := false, swapPayeesMemos := true } ∧
    (convertOne { importMemos := false, swapPayeesMemos := true }
        { date := "2023-01-01", description := "D", amount := 0, payee := some "P" }).Payee = "P" ∧
    (convertOne { importMemos := false, swapPayeesMemos := true }
        { date := "2023-01-01", description := "D", amount := 0, payee := some "P" }).Memo =
      (if ({ importMemos := false, swapPayeesMemos := true } : ConvertToYNABOptions).importMemos
        then ({ date := "2023-01-01", description := "D", amount := 0,
                payee := some "P" } : NormalizedTransaction).description else "") :=
  convert_payee_memo_amended _ _ _ "P" (List.mem_singleton.mpr rfl) (by decide)

/-! ## Claim C2 -/

/-- C2 (counterexample): under the hint `MM/DD/YYYY` the raw string
`"31/12/2023"` is NOT rejected: the strict pattern matches (it validates
no ranges), `Date.UTC(2023, 30, 12)` rolls the out-of-range month over,
and a fully normalized ISO date `"2025-07-12"` is produced without any
parse failure. -/
theorem date_hint_mmdd_counterexample :
    formatDateW "31/12/2023" (some "MM/DD/YYYY") = ("2025-07-12", false) ∧
    isoShape "2025-07-12" = true := by
  constructor
  · decide
  · decide

/-- C2 (amended): `"31/12/2023"` under hint `DD/MM/YYYY` normalizes to
`"2023-12-31"`; under hint `MM/DD/YYYY` the same string still parses —
the month 31 rolls over in calendar arithmetic — yielding the normalized
date `"2025-07-12"` instead of failing. -/
theorem date_hint_precedence_amended :
    formatDate "31/12/2023" (some "DD/MM/YYYY") = "2023-12-31" ∧
    formatDate "31/12/2023" (some "MM/DD/YYYY") = "2025-07-12" := by
  constructor
  · decide
  · decide

/-! ## Claim C10 -/

/-- C10: the hint-driven strict parse also accepts one-digit day/month
components and `'-'` or `'.'` separators, and expands a two-digit year
`YY` to `20YY`: `"5-6-99"` under `DD/MM/YYYY` gives `"2099-06-05"`,
`"5.6.99"` under `MM/DD/YYYY` gives `"2099-05-06"`, and `"5/6/99"`
under `DD/MM/YYYY` gives `"2099-06-05"`. -/
theorem hint_pattern_flexible :
    formatDate "5-6-99" (some "DD/MM/YYYY") = "2099-06-05" ∧
    formatDate "5.6.99" (some "MM/DD/YYYY") = "2099-05-06" ∧
    formatDate "5/6/99" (some "DD/MM/YYYY") = "2099-06-05" := by
  refine ⟨?_, ?_, ?_⟩ <;> decide

/-! ## Claim C3 -/

/-- C3: per converted record, `Outflow` is `abs(amount)` rendered with
two fraction digits exactly when `amount < 0` (else empty), `Inflow` is
`amount` so rendered exactly when `amount > 0` (else empty), both are
empty at zero, at most one of the two is non-empty, and each non-empty
one ends in a decimal point followed by exactly two digits. -/
theorem outflow_inflow_exclusive (txs : List NormalizedTransaction)
    (options : ConvertToYNABOptions) (tx : NormalizedTransaction) (htx : tx ∈ txs) :
    convertOne options tx ∈ convertToYNABTransactions txs options ∧
    (tx.amount < 0 → (convertOne options tx).Outflow = toFixed2 |tx.amount| ∧
      (convertOne options tx).Inflow = "") ∧
    (0 < tx.amount → (convertOne options tx).Inflow = toFixed2 tx.amount ∧
      (convertOne options tx).Outflow = "") ∧
    (tx.amount = 0 → (convertOne options tx).Outflow = "" ∧
      (convertOne options tx).Inflow = "") ∧
    ((convertOne options tx).Outflow = "" ∨ (convertOne options tx).Inflow = "") ∧
    ((convertOne options tx).Outflow ≠ "" →
      ∃ pre a b, (convertOne options tx).Outflow = pre ++ "." ++ String.mk [a, b] ∧
        a.isDigit = true ∧ b.isDigit = true) ∧
    ((convertOne options tx).Inflow ≠ "" →
      ∃ pre a b, (convertOne options tx).Inflow = pre ++ "." ++ String.mk [a, b] ∧
        a.isDigit = true ∧ b.isDigit = true) := by
  refine ⟨List.mem_map_of_mem _ htx, ?_, ?_, ?_, ?_, ?_, ?_⟩
  · intro hneg
    simp [convertOne, hneg, not_lt_of_lt hneg]
  · intro hpos
    simp [convertOne, hpos, not_lt_of_lt hpos]
  · intro hz
    simp [convertOne, hz]
  · rcases lt_trichotomy tx.amount 0 with hneg | hz | hpos
    · right; simp [convertOne, not_lt_of_lt hneg]
    · left; simp [convertOne, hz]
    · left; simp [convertOne, not_lt_of_lt hpos]
  · intro hne
    by_cases hneg : tx.amount < 0
    · have : (convertOne options tx).Outflow = toFixed2 |tx.amount| := by
        simp [convertOne, hneg]
      rw [this]; exact toFixed2_shape _
    · exact absurd (by simp [convertOne, hneg]) hne
  · intro hne
    by_cases hpos : 0 < tx.amount
    · have : (convertOne options tx).Inflow = toFixed2 tx.amount := by
        simp [convertOne, hpos]
      rw [this]; exact toFixed2_shape _
    · exact absurd (by simp [convertOne, hpos]) hne

/-- Concrete record and options used by the C3 witness. -/
def txGas : NormalizedTransaction :=
  { date := "2023-01-03", description := "Gas Station", amount := -30.5 }

def optPlain : ConvertToYNABOptions :=
  { importMemos := false, swapPayeesMemos := false }

/-- C3 (witness). -/
theorem outflow_inflow_exclusive_witness :
    convertOne optPlain txGas ∈ convertToYNABTransactions [txGas] optPlain ∧
    (convertOne optPlain txGas).Outflow = toFixed2 |txGas.amount| ∧
    (convertOne optPlain txGas).Inflow = "" :=
  ⟨(outflow_inflow_exclusive [txGas] optPlain txGas (List.mem_singleton.mpr rfl)).1,
   (outflow_inflow_exclusive [txGas] optPlain txGas (List.mem_singleton.mpr rfl)).2.1
     (by norm_num [txGas])⟩

/-! ## Claim C4 -/

/-- C4: a raw row is dropped by the per-row mapping (yielding `null`,
never an error) exactly when its resolved date or description cell is
absent or blank after trimming; the returned count equals the count of
rows with both cells non-blank; and on the default single-amount-column
path an unparseable (or zero) amount still yields a kept record whose
amount is `0`. -/
theorem row_drop_rule (config : BankParseConfig) (hint : Option String) :
    (∀ row : Row, rowToTx config hint row = none ↔
       (blankCell (getRowValue row (some config.dateField)) = true ∨
        blankCell (getRowValue row (some config.descriptionField)) = true)) ∧
    (∀ rows : List Row,
       (rows.filterMap (rowToTx config hint)).length =
         (rows.filter (fun r => !(blankCell (getRowValue r (some config.dateField)) ||
            blankCell (getRowValue r (some config.descriptionField))))).length) ∧
    (∀ (row : Row) (af : String) (tx : NormalizedTransaction),
       config.transformAmount = none →
       jsTruthyStr config.amountField = some af →
       (jsParseFloat (defaultCleanedAmount row af) = none ∨
        jsParseFloat (defaultCleanedAmount row af) = some 0) →
       rowToTx config hint row = some tx → tx.amount = 0) := by
  have hmain : ∀ row : Row, rowToTx config hint row = none ↔
      (blankCell (getRowValue row (some config.dateField)) = true ∨
       blankCell (getRowValue row (some config.descriptionField)) = true) := by
    intro row
    by_cases h : (blankCell (getRowValue row (some config.dateField)) ||
        blankCell (getRowValue row (some config.descriptionField))) = true
    · have hnone : rowToTx config hint row = none := by simp [rowToTx, h]
      exact iff_of_true hnone (bool_or_eq_true.mp h)
    · simp only [rowToTx, h, if_false]
      refine iff_of_false (by simp) ?_
      intro hc
      exact h (bool_or_eq_true.mpr hc)
  refine ⟨hmain, ?_, ?_⟩
  · intro rows
    rw [length_filterMap_eq_length_filter]
    apply congrArg List.length
    apply List.filter_congr
    intro r _
    by_cases h : (blankCell (getRowValue r (some config.dateField)) ||
        blankCell (getRowValue r (some config.descriptionField))) = true
    · have hnone : rowToTx config hint r = none := (hmain r).mpr (bool_or_eq_true.mp h)
      simp [hnone, h]
    · have hne : ¬ rowToTx config hint r = none := by
        intro hc
        exact h (bool_or_eq_true.mpr ((hmain r).mp hc))
      have h' := Bool.not_eq_true _ |>.mp h
      simp [Option.isSome_iff_ne_none.mpr hne, h']
  · intro row af tx htr haf hpf hsome
    by_cases h : (blankCell (getRowValue row (some config.dateField)) ||
        blankCell (getRowValue row (some config.descriptionField))) = true
    · rw [(hmain row).mpr (bool_or_eq_true.mp h)] at hsome
      exact absurd hsome (by simp)
    · have hval : rowToTx config hint row =
          some { date := formatDate (jsString (getRowValue row (some config.dateField))) hint,
                 description := jsTrim (jsString (getRowValue row (some config.descriptionField))),
                 amount := resolveAmount config row,
                 payee := resolvePayee config row } := by
        simp [rowToTx, h]
      rw [hval, Option.some_inj] at hsome
      rw [← hsome]
      show resolveAmount config row = 0
      simp only [resolveAmount, htr, haf]
      rcases hpf with hn | hz
      · simp [jsParseFloatOr0, hn]
      · simp [jsParseFloatOr0, hz]

/-- Concrete configuration and rows for the C4 witness. -/
def witCfg : BankParseConfig :=
  { label := "T", dateField := "Date", descriptionField := "Description",
    amountField := some "Amount" }

def witRowBadAmt : Row := [("Date", "2023-01-01"), ("Description", "d"), ("Amount", "abc")]

def witRowBlankDesc : Row := [("Date", "2023-01-01"), ("Description", ""), ("Amount", "5")]

def witTxBadAmt : NormalizedTransaction :=
  { date := "2023-01-01", description := "d", amount := 0, payee := none }

/-- C4 (witness): a row with unparseable amount is kept with amount `0`;
a row with a blank description is dropped. -/
theorem row_drop_rule_witness :
    witTxBadAmt.amount = 0 ∧ rowToTx witCfg none witRowBlankDesc = none :=
  ⟨(row_drop_rule witCfg none).2.2 witRowBadAmt "Amount" witTxBadAmt rfl (by decide)
      (Or.inl (by decide)) (by decide),
   ((row_drop_rule witCfg none).1 witRowBlankDesc).mpr (Or.inr (by decide))⟩

/-! ## Claim C5 -/

/-- The raw CSV row of the C5 counterexample: its date `"2023-02-30"`
fails every parsing strategy (invalid day of month), so the raw string
is retained. -/
def scotiaRow : Row := [("Date", "2023-02-30"), ("Description", "x"), ("Amount", "5")]

/-- C5 (counterexample): a record whose date failed to normalize is NOT
always kept by the start-date filter.  Without a filter the record (raw
date retained, warning emitted) is returned; with filter `"2023-03-01"`
it is dropped, because its raw string happens to match the
`YYYY-MM-DD` shape and compares below the filter. -/
theorem start_date_filter_counterexample :
    formatDateW "2023-02-30" (some "YYYY-MM-DD") = ("2023-02-30", true) ∧
    parseFile "t.csv" "scotiabank" none none [scotiaRow] [] =
      Except.ok [{ date := "2023-02-30", description := "x", amount := -5, payee := none }] ∧
    parseFile "t.csv" "scotiabank" none (some "2023-03-01") [scotiaRow] [] =
      Except.ok [] := by
  refine ⟨?_, ?_, ?_⟩ <;> decide

/-- C5 (amended): with no filter, or a filter not of `YYYY-MM-DD` shape,
nothing is removed; with a well-formed filter a record is kept iff its
date string fails the `YYYY-MM-DD` shape test (always kept, whether or
not normalization succeeded) or compares lexicographically ≥ the filter.
A failed-to-normalize date whose raw string matches the shape is still
compared and may be dropped. -/
theorem start_date_filter_amended :
    (∀ txs : List NormalizedTransaction, applyStartDateFilter none txs = txs) ∧
    (∀ (d : String) (txs : List NormalizedTransaction), isoShape d = false →
      applyStartDateFilter (some d) txs = txs) ∧
    (∀ (d : String) (txs : List NormalizedTransaction) (tx : NormalizedTransaction),
      isoShape d = true →
      (tx ∈ applyStartDateFilter (some d) txs ↔
        tx ∈ txs ∧ (isoShape tx.date = false ∨ jsStrGe tx.date d = true))) := by
  refine ⟨fun txs => rfl, ?_, ?_⟩
  · intro d txs hd
    simp [applyStartDateFilter, hd]
  · intro d txs tx hd
    simp only [applyStartDateFilter, hd, if_true]
    rw [List.mem_filter]
    constructor
    · rintro ⟨h1, h2⟩
      refine ⟨h1, ?_⟩
      rcases bool_or_eq_true.mp h2 with h | h
      · exact Or.inl (by simpa using h)
      · exact Or.inr h
    · rintro ⟨h1, h2⟩
      refine ⟨h1, ?_⟩
      rcases h2 with h | h
      · exact bool_or_eq_true.mpr (Or.inl (by simpa using h))
      · exact bool_or_eq_true.mpr (Or.inr h)

/-- The three dated records of the specification's filtering example. -/
def txJan01 : NormalizedTransaction := { date := "2023-01-01", description := "a", amount := 1 }

def txJan15 : NormalizedTransaction := { date := "2023-01-15", description := "b", amount := 1 }

def txJan30 : NormalizedTransaction := { date := "2023-01-30", description := "c", amount := 1 }

/-- C5 (witness): the membership characterization applied to the spec's
boundary example (filter `2023-01-15`). -/
theorem start_date_filter_amended_witness :
    (txJan15 ∈ applyStartDateFilter (some "2023-01-15") [txJan01, txJan15, txJan30] ↔
      txJan15 ∈ [txJan01, txJan15, txJan30] ∧
        (isoShape txJan15.date = false ∨ jsStrGe txJan15.date "2023-01-15" = true)) ∧
    (txJan01 ∈ applyStartDateFilter (some "2023-01-15") [txJan01, txJan15, txJan30] ↔
      txJan01 ∈ [txJan01, txJan15, txJan30] ∧
        (isoShape txJan01.date = false ∨ jsStrGe txJan01.date "2023-01-15" = true)) :=
  ⟨start_date_filter_amended.2.2 "2023-01-15" [txJan01, txJan15, txJan30] txJan15 (by decide),
   start_date_filter_amended.2.2 "2023-01-15" [txJan01, txJan15, txJan30] txJan01 (by decide)⟩

/-! ## Claim C6 -/

/-- C6 (counterexample): on input `"0099"` no parsing strategy fails
(the warning flag is `false`), yet the returned string `"99-01-01"` is
neither of the claimed shapes — it is not a `YYYY-MM-DD` date (the year
is rendered unpadded) and it is not the original raw string. -/
theorem format_date_shape_counterexample :
    formatDateW "0099" none = ("99-01-01", false) ∧
    isoShape "99-01-01" = false ∧
    ("99-01-01" : String) ≠ "0099" := by
  refine ⟨?_, ?_, ?_⟩ <;> decide

/-- C6 (amended): `formatDate` always returns a string — the
`year-MM-DD` rendering of the parsed date on success (month and day
zero-padded, the year rendered as-is, so not necessarily four digits),
or on failure the original raw string verbatim together with the
warning; and a row with non-blank date and description is retained (not
dropped) whatever the outcome of date parsing, its `date` field being
exactly `formatDate` of the raw cell. -/
theorem format_date_total_amended :
    (∀ (s : String) (hint : Option String),
      (∃ y m d, formatDateCore s hint = some (y, m, d) ∧
        formatDateW s hint = (renderYMD y m d, false)) ∨
      (formatDateCore s hint = none ∧ formatDateW s hint = (s, true))) ∧
    (∀ (config : BankParseConfig) (hint : Option String) (row : Row) (ds cs : String),
      getRowValue row (some config.dateField) = some ds → jsTrim ds ≠ "" →
      getRowValue row (some config.descriptionField) = some cs → jsTrim cs ≠ "" →
      rowToTx config hint row =
        some { date := formatDate ds hint, description := jsTrim cs,
               amount := resolveAmount config row, payee := resolvePayee config row }) := by
  constructor
  · intro s hint
    cases hc : formatDateCore s hint with
    | none => exact Or.inr ⟨rfl, by simp [formatDateW, hc]⟩
    | some t =>
      obtain ⟨y, m, d⟩ := t
      exact Or.inl ⟨y, m, d, rfl, by simp [formatDateW, hc]⟩
  · intro config hint row ds cs hds htds hcs htcs
    have h1 : blankCell (some ds) = false := by
      simp [blankCell, htds]
    have h2 : blankCell (some cs) = false := by
      simp [blankCell, htcs]
    simp [rowToTx, hds, hcs, h1, h2, jsString]

/-- The row of the C6 witness: valid date/description cells, with a date
that no parsing strategy accepts. -/
def witRowFailDate : Row := [("Date", "notadate"), ("Description", "d")]

/-- C6 (witness): the unparseable date keeps the raw string and the row
is retained. -/
theorem format_date_total_amended_witness :
    rowToTx witCfg none witRowFailDate =
      some { date := formatDate "notadate" none, description := jsTrim "d",
             amount := resolveAmount witCfg witRowFailDate,
             payee := resolvePayee witCfg witRowFailDate } :=
  format_date_total_amended.2 witCfg none witRowFailDate "notadate" "d"
    (by decide) (by decide) (by decide) (by decide)

/-! ## Claim C7 -/

/-- C7: `parseFile` rejects before any row processing exactly in two
configuration cases: an institution key absent from the table (with the
exact message, for every file name — in particular also for unsupported
extensions, which is the unknown-key-before-extension ordering), and a
supported key with an extension outside csv/xls/xlsx; in every other
configuration the call succeeds. -/
theorem config_error_precedence :
    (∀ (fileName bankType : String) (hint sd : Option String)
      (csv : List Row) (sheet : List (List String)),
      List.lookup bankType bankConfigs = none →
      parseFile fileName bankType hint sd csv sheet =
        Except.error s!"Unsupported bank type: {bankType}. No configuration found.") ∧
    (∀ (fileName bankType : String) (config : BankParseConfig) (hint sd : Option String)
      (csv : List Row) (sheet : List (List String)),
      List.lookup bankType bankConfigs = some config →
      fileExtension fileName ≠ "csv" → fileExtension fileName ≠ "xlsx" →
      fileExtension fileName ≠ "xls" →
      parseFile fileName bankType hint sd csv sheet =
        Except.error "Unsupported file type. Please upload CSV, XLS, or XLSX.") ∧
    (∀ (fileName bankType : String) (config : BankParseConfig) (hint sd : Option String)
      (csv : List Row) (sheet : List (List String)),
      List.lookup bankType bankConfigs = some config →
      (fileExtension fileName = "csv" ∨ fileExtension fileName = "xlsx" ∨
        fileExtension fileName = "xls") →
      ∃ txs, parseFile fileName bankType hint sd csv sheet = Except.ok txs) := by
  refine ⟨?_, ?_, ?_⟩
  · intro fileName bankType hint sd csv sheet h
    simp [parseFile, parseFileWith, h]
  · intro fileName bankType config hint sd csv sheet hlk h1 h2 h3
    simp [parseFile, parseFileWith, hlk, h1, h2, h3]
  · intro fileName bankType config hint sd csv sheet hlk hext
    rcases hext with h | h | h
    · refine ⟨applyStartDateFilter sd ((csv.drop (config.skipRows.getD 0)).filterMap
        (rowToTx config (jsOrStr hint config.dateFormat))), ?_⟩
      simp [parseFile, parseFileWith, hlk, h]
    · refine ⟨applyStartDateFilter sd ((parseXLSX sheet (config.skipRows.getD 0)).filterMap
        (rowToTx config (jsOrStr hint config.dateFormat))), ?_⟩
      simp [parseFile, parseFileWith, hlk, h]
    · refine ⟨applyStartDateFilter sd ((parseXLSX sheet (config.skipRows.getD 0)).filterMap
        (rowToTx config (jsOrStr hint config.dateFormat))), ?_⟩
      simp [parseFile, parseFileWith, hlk, h]

/-- C7 (witness): an unknown key fails with the exact message even on a
`.txt` file (key check first); a known key with a `.txt` file fails with
the file-type message; a known key with a `.csv` file succeeds. -/
theorem config_error_precedence_witness :
    parseFile "t.txt" "unsupported" none none [] [] =
      Except.error "Unsupported bank type: unsupported. No configuration found." ∧
    parseFile "t.txt" "eqbank" none none [] [] =
      Except.error "Unsupported file type. Please upload CSV, XLS, or XLSX." ∧
    ∃ txs, parseFile "t.csv" "eqbank" none none [] [] = Except.ok txs :=
  ⟨config_error_precedence.1 "t.txt" "unsupported" none none [] [] rfl,
   config_error_precedence.2.1 "t.txt" "eqbank"
     (bankConfigs.getD 0 ("", { label := "", dateField := "", descriptionField := "" })).2
     none none [] [] rfl (by decide) (by decide) (by decide),
   config_error_precedence.2.2 "t.csv" "eqbank"
     (bankConfigs.getD 0 ("", { label := "", dateField := "", descriptionField := "" })).2
     none none [] [] rfl (Or.inl (by decide))⟩

/-! ## Claim C8 -/

/-- C8: for a purely numeric date string the hint patterns never match
(they require separators), so the generic chain runs; when generic
parsing resolves the string to a year equal to its own numeric value
and that value lies in `[20000, 80000]`, the value is reinterpreted as
a spreadsheet serial date (days since 1899-12-30); outside that range
the year parse is kept; when generic parsing fails, a 4–5 digit value
in `[1, 100000)` is likewise reinterpreted as a serial.  Concretely,
`"44926"` normalizes to `"2022-12-31"` while `"2023"` is kept as a
year. -/
theorem numeric_serial_reinterpretation (s : String) (hint : Option String) (n : Nat)
    (hdig : digitsOnly s.data = true) (hval : natValue s.data = n) :
    (∀ m d, jsDateParse s = some ((n : Int), m, d) →
      20000 ≤ n → n ≤ 80000 → formatDateCore s hint = some (serialCivil n)) ∧
    (∀ m d, jsDateParse s = some ((n : Int), m, d) →
      ¬(20000 ≤ n ∧ n ≤ 80000) → formatDateCore s hint = some ((n : Int), m, d)) ∧
    (jsDateParse s = none → (s.length = 4 ∨ s.length = 5) → 1 ≤ n → n < 100000 →
      formatDateCore s hint = some (serialCivil n)) ∧
    formatDate "44926" none = "2022-12-31" ∧
    formatDate "2023" none = "2023-01-01" := by
  have hgen : formatDateCore s hint = formatDateGeneric s := by
    by_cases hh1 : hint = some "DD/MM/YYYY"
    · simp [formatDateCore, hh1, matchDayMonthPat_of_digits hdig]
    · by_cases hh2 : hint = some "MM/DD/YYYY"
      · simp [formatDateCore, hh1, hh2, matchDayMonthPat_of_digits hdig]
      · by_cases hh3 : hint = some "YYYY/MM/DD"
        · simp [formatDateCore, hh1, hh2, hh3, matchYMDPat_of_digits hdig]
        · simp [formatDateCore, hh1, hh2, hh3]
  refine ⟨?_, ?_, ?_, by decide, by decide⟩
  · intro m d hjp h1 h2
    rw [hgen]
    simp [formatDateGeneric, hdig, hjp, hval, h1, h2]
  · intro m d hjp hrange
    rw [hgen]
    simp [formatDateGeneric, hdig, hjp, hval, hrange]
  · intro hjp hlen h1 h2
    rw [hgen]
    simp [formatDateGeneric, hdig, hjp, hval, hlen, h1, h2]

/-- C8 (witness). -/
theorem numeric_serial_reinterpretation_witness :
    formatDateCore "44926" none = some (serialCivil 44926) :=
  (numeric_serial_reinterpretation "44926" none 44926 (by decide) (by decide)).1 1 1
    (by decide) (by decide) (by decide)

/-! ## Claim C9 -/

/-- C9: the adopted header row index defaults to `skipRows`; when
`skipRows >= 10` it is the first row whose first cell, trimmed and
lowercased, equals `"date"`, falling back to `skipRows` when no such
row exists; the adopted row's cells become headers and exactly the rows
after it become the data rows. -/
theorem xlsx_header_discovery :
    (∀ (sheet : List (List String)) (skipRows : Nat), skipRows < 10 →
      headerRowIndexOf sheet skipRows = skipRows) ∧
    (∀ (sheet : List (List String)) (skipRows i : Nat), 10 ≤ skipRows →
      findDateRowIdx sheet = some i →
      headerRowIndexOf sheet skipRows = i ∧ i < sheet.length ∧
        rowIsDateHeader (sheet.getD i []) = true ∧
        ∀ j, j < i → rowIsDateHeader (sheet.getD j []) = false) ∧
    (∀ (sheet : List (List String)) (skipRows : Nat), 10 ≤ skipRows →
      findDateRowIdx sheet = none →
      headerRowIndexOf sheet skipRows = skipRows ∧
        ∀ j, j < sheet.length → rowIsDateHeader (sheet.getD j []) = false) ∧
    (∀ (sheet : List (List String)) (skipRows : Nat), sheet.isEmpty = false →
      headerRowIndexOf sheet skipRows < sheet.length →
      parseXLSX sheet skipRows =
        (sheet.drop (headerRowIndexOf sheet skipRows + 1)).map
          (mkRowObject (sheet.getD (headerRowIndexOf sheet skipRows) []))) := by
  refine ⟨?_, ?_, ?_, ?_⟩
  · intro sheet skipRows h
    simp [headerRowIndexOf, Nat.not_le.mpr h]
  · intro sheet skipRows i h10 hfind
    obtain ⟨hlt, hhd, hprev⟩ := findDateRowIdx_some hfind
    exact ⟨by simp [headerRowIndexOf, h10, hfind], hlt, hhd, hprev⟩
  · intro sheet skipRows h10 hfind
    exact ⟨by simp [headerRowIndexOf, h10, hfind], findDateRowIdx_none hfind⟩
  · intro sheet skipRows hne hlt
    simp [parseXLSX, hne, Nat.not_le.mpr hlt]

/-- A spreadsheet matrix with the `"date"` marker row at index 2, used
by the C9 witness. -/
def witSheet : List (List String) :=
  [["junk"], ["more", "junk"], [" DATE ", "Description"], ["1/2/2023", "x"]]

/-- C9 (witness): with `skipRows = 12` the scan adopts row index 2. -/
theorem xlsx_header_discovery_witness :
    headerRowIndexOf witSheet 12 = 2 ∧ 2 < witSheet.length ∧
      rowIsDateHeader (witSheet.getD 2 []) = true ∧
      ∀ j, j < 2 → rowIsDateHeader (witSheet.getD j []) = false :=
  xlsx_header_discovery.2.1 witSheet 12 2 (by decide) (by decide)

end BankToYnab
